import Mathlib

/-!
Verification development for the IrrigationDecision-Dashboard repository.

The embedding covers `src/config.py` (soil-texture reference data,
`get_soil_properties`) and `src/FakeData.py` (`generate_sensor_data`,
`get_current_conditions`).  Machine floats are modelled as real numbers,
timestamps as seconds-since-epoch naturals, and the numpy global random
source as an explicit state (a natural number) threaded through abstract
draw functions collected in a `RandomLib` structure; `np.random.seed`
replaces the state by `seedFn seed`.  Gaussian draws have full real
support, so a noise channel is any real-valued draw function.
`np.round` is modelled as round-to-nearest.
-/

namespace IrrigationDemo

/-- Soil hydraulic properties, as returned by `get_soil_properties`
(config.py lines 101-113): field capacity, wilting point and
total available water. -/
structure SoilProps where
  fc : ℝ
  pwp : ℝ
  taw : ℝ

/-- The texture table `SOIL.TEXTURE_PROPERTIES` (config.py lines 34-44):
texture-class name to (field capacity, wilting point).  Unknown names
give `none`, mirroring a failed dict lookup. -/
noncomputable def TEXTURE_PROPERTIES (t : String) : Option (ℝ × ℝ) :=
  if t = "Sand" then some (0.12, 0.04)
  else if t = "Loamy Sand" then some (0.14, 0.06)
  else if t = "Sandy Loam" then some (0.23, 0.10)
  else if t = "Loam" then some (0.27, 0.12)
  else if t = "Silt Loam" then some (0.33, 0.13)
  else if t = "Sandy Clay Loam" then some (0.26, 0.15)
  else if t = "Clay Loam" then some (0.32, 0.20)
  else if t = "Silty Clay Loam" then some (0.37, 0.22)
  else if t = "Clay" then some (0.43, 0.29)
  else none

/-- Model of `get_soil_properties` (config.py lines 101-113): dict get with the
"Silt Loam" entry (0.33, 0.13) as default, and `taw = fc - pwp`. -/
noncomputable def get_soil_properties (texture : String) : SoilProps :=
  let props := (TEXTURE_PROPERTIES texture).getD (0.33, 0.13)
  { fc := props.1, pwp := props.2, taw := props.1 - props.2 }

/-- Constant `SENSOR.moisture_noise_std` (config.py line 71). -/
noncomputable def moisture_noise_std : ℝ := 0.015

/-- Constant `SENSOR.temp_noise_std` (config.py line 72). -/
noncomputable def temp_noise_std : ℝ := 0.8

/-- Model of the numpy global random source: an abstract state (ℕ) with
the draw primitives the generator consumes.  `seedFn` models
`np.random.seed`; `randNat` a raw integer draw; `randUnit` a uniform
[0,1) draw; `randGauss std` a `normal(0, std)` draw (full real support). -/
structure RandomLib where
  seedFn : ℤ → ℕ
  randNat : ℕ → ℕ × ℕ
  randUnit : ℕ → ℝ × ℕ
  randGauss : ℝ → ℕ → ℝ × ℕ

/-- Resolution of the optional seed (FakeData.py lines 47-48): an explicit
seed resets the global state via `seedFn`; otherwise the incoming state
`s0` is used unchanged. -/
def resolveSeed (lib : RandomLib) (seed : Option ℤ) (s0 : ℕ) : ℕ :=
  match seed with
  | some z => lib.seedFn z
  | none => s0

/-- Model of `np.random.choice(pool, k, replace=False)` (FakeData.py
line 81): draws `k` distinct elements; fails (like numpy's ValueError)
exactly when the population is too small. -/
def sampleNoReplace (lib : RandomLib) : ℕ → List ℕ → ℕ → Option (List ℕ × ℕ)
  | 0, _, s => some ([], s)
  | _ + 1, [], _ => none
  | k + 1, p :: ps, s =>
    let r := lib.randNat s
    let idx := r.1 % (p :: ps).length
    match sampleNoReplace lib k ((p :: ps).eraseIdx idx) r.2 with
    | none => none
    | some (rest, s2) => some ((p :: ps).getD idx 0 :: rest, s2)

/-- The amount loop (FakeData.py lines 83-86): each chosen hour gets an
amount `np.random.uniform(0.2, 1.0) = 0.2 + (1.0-0.2)*u`. -/
noncomputable def drawAmounts (lib : RandomLib) : List ℕ → ℕ → List (ℕ × ℝ) × ℕ
  | [], s => ([], s)
  | h :: rest, s =>
    let u := lib.randUnit s
    let r := drawAmounts lib rest u.2
    ((h, 0.2 + (1.0 - 0.2) * u.1) :: r.1, r.2)

/-- Rain-event generation (FakeData.py lines 78-86): `n_events =
np.random.randint(2,5)`, hours drawn without replacement from
`range(24, n_hours - 24)`, then the amounts. -/
noncomputable def genRainEvents (lib : RandomLib) (nHours : ℕ) (s : ℕ) :
    Option (List (ℕ × ℝ) × ℕ) :=
  let r := lib.randNat s
  let nEvents := 2 + r.1 % 3
  match sampleNoReplace lib nEvents (List.range' 24 (nHours - 24 - 24)) r.2 with
  | none => none
  | some (hours, s2) => some (drawAmounts lib hours s2)

/-- Model of `datetime.now().replace(minute=0, second=0, microsecond=0)`
(FakeData.py line 57), on seconds-since-epoch: zero the sub-hour part. -/
def endTimeOf (now : ℕ) : ℕ := now / 3600 * 3600

/-- Model of `end_time - timedelta(days=days)` (FakeData.py line 58). -/
def startTimeOf (days now : ℕ) : ℕ := endTimeOf now - days * 86400

/-- Model of `pd.date_range(start, end, freq='h')` (FakeData.py line 59): the
inclusive arithmetic sequence of timestamps. -/
def dateRange (start stop step : ℕ) : List ℕ :=
  (List.range ((stop - start) / step + 1)).map fun k => start + step * k

/-- Model of `n_hours = len(timestamps)` (FakeData.py line 60). -/
def nHoursOf (days now : ℕ) : ℕ :=
  (dateRange (startTimeOf days now) (endTimeOf now) 3600).length

/-- The `.hour` field of a seconds-since-epoch timestamp. -/
def hourOfDay (ts : ℕ) : ℕ := ts / 3600 % 24

/-- One hour's three moisture values (`sm_6in`, `sm_12in`, `sm_18in`). -/
structure Moisture where
  sm6 : ℝ
  sm12 : ℝ
  sm18 : ℝ

/-- Model of `np.clip(x, lo, hi)` (FakeData.py lines 122-124, 149). -/
noncomputable def clip (x lo hi : ℝ) : ℝ := min hi (max lo x)

/-- The diurnal ET multiplier (FakeData.py lines 93-96): zero outside
local hours [6, 20], otherwise `sin(pi*(hour-6)/14)`. -/
noncomputable def diurnalFactor (h : ℕ) : ℝ :=
  if 6 ≤ h ∧ h ≤ 20 then Real.sin (Real.pi * ((h : ℝ) - 6) / 14) else 0

/-- Model of `et_volumetric = base_et_rate * diurnal_factor / 6`
(FakeData.py lines 71, 98, 102). -/
noncomputable def etVolumetric (h : ℕ) : ℝ := 0.012 * diurnalFactor h / 6

/-- The ET depletion stage of one simulation hour (FakeData.py lines
104-106), with depth factors 1.0 / 0.6 / 0.3 (line 74). -/
noncomputable def etStep (h : ℕ) (m : Moisture) : Moisture :=
  { sm6 := m.sm6 - etVolumetric h * 1.0
    sm12 := m.sm12 - etVolumetric h * 0.6
    sm18 := m.sm18 - etVolumetric h * 0.3 }

/-- Contribution of one rain event at simulation hour `i`
(FakeData.py lines 109-119). -/
noncomputable def rainAddOne (i : ℕ) (m : Moisture) (ev : ℕ × ℝ) : Moisture :=
  if i = ev.1 then
    { sm6 := m.sm6 + ev.2 * 0.08
      sm12 := m.sm12 + ev.2 * 0.04
      sm18 := m.sm18 + ev.2 * 0.02 }
  else if ev.1 < i ∧ i < ev.1 + 12 then
    { m with
      sm12 := m.sm12 + ev.2 * 0.003 * (12 - ((i - ev.1 : ℕ) : ℝ)) / 12
      sm18 := m.sm18 + ev.2 * 0.002 * (12 - ((i - ev.1 : ℕ) : ℝ)) / 12 }
  else m

/-- The rain loop of one simulation hour (FakeData.py lines 109-119):
fold over the event list in order. -/
noncomputable def rainAdd (events : List (ℕ × ℝ)) (i : ℕ) (m : Moisture) : Moisture :=
  events.foldl (rainAddOne i) m

/-- The clamping stage (FakeData.py lines 121-124). -/
noncomputable def clampM (fc pwp : ℝ) (m : Moisture) : Moisture :=
  { sm6 := clip m.sm6 (pwp * 0.8) (fc * 1.05)
    sm12 := clip m.sm12 (pwp * 0.8) (fc * 1.05)
    sm18 := clip m.sm18 (pwp * 0.8) (fc * 1.05) }

/-- One full iteration of the simulation loop body (FakeData.py
lines 89-124) at hour index `i` with local hour-of-day `h`. -/
noncomputable def moistureStep (fc pwp : ℝ) (events : List (ℕ × ℝ)) (i h : ℕ)
    (m : Moisture) : Moisture :=
  clampM fc pwp (rainAdd events i (etStep h m))

/-- The pre-noise moisture series: hour 0 is
`initial_moisture = pwp + 0.70*taw` (FakeData.py lines 63-67), later
hours apply the loop body with the hour's timestamp. -/
noncomputable def moistureSeries (fc pwp taw : ℝ) (events : List (ℕ × ℝ))
    (start : ℕ) : ℕ → Moisture
  | 0 => ⟨pwp + 0.70 * taw, pwp + 0.70 * taw, pwp + 0.70 * taw⟩
  | i + 1 =>
    moistureStep fc pwp events (i + 1) (hourOfDay (start + 3600 * (i + 1)))
      (moistureSeries fc pwp taw events start i)

/-- A list of `n` Gaussian draws (`np.random.normal(0, std, n)`,
FakeData.py lines 127-129, 142, 154). -/
def gaussList (lib : RandomLib) (std : ℝ) : ℕ → ℕ → List ℝ × ℕ
  | 0, s => ([], s)
  | n + 1, s =>
    let g := lib.randGauss std s
    let rest := gaussList lib std n g.2
    (g.1 :: rest.1, rest.2)

/-- Air temperature before noise (FakeData.py lines 133-141). -/
noncomputable def airBase (h : ℕ) : ℝ :=
  if 6 ≤ h ∧ h ≤ 18 then 30.0 + 8.0 * Real.sin (Real.pi * ((h : ℝ) - 6) / 12)
  else 30.0 - 8.0 * 0.5

/-- The moisture-stress index (FakeData.py lines 147-149):
`clip(1 - (avg - pwp)/taw, 0, 1)` of the shallow/mid average. -/
noncomputable def moistureStress (pwp taw sm6 sm12 : ℝ) : ℝ :=
  clip (1 - ((sm6 + sm12) / 2 - pwp) / taw) 0 1

/-- The canopy offset `-2 + 7*stress` (FakeData.py line 152). -/
noncomputable def canopyOffset (stress : ℝ) : ℝ := -2 + 7 * stress

/-- Model of `np.round(x, 4)` as round-to-nearest at 4 decimals. -/
noncomputable def round4 (x : ℝ) : ℝ := ((round (x * 10000) : ℤ) : ℝ) / 10000

/-- Model of `np.round(x, 1)` as round-to-nearest at 1 decimal. -/
noncomputable def round1 (x : ℝ) : ℝ := ((round (x * 10) : ℤ) : ℝ) / 10

/-- One output row (FakeData.py lines 157-164). -/
structure Record where
  timestamp : ℕ
  sm_6in : ℝ
  sm_12in : ℝ
  sm_18in : ℝ
  canopy_temp_c : ℝ
  air_temp_c : ℝ

/-- The post-loop pipeline (FakeData.py lines 126-164): three moisture
noise channels, air temperature with noise, stress-driven canopy
temperature with noise at half scale, rounding, and row assembly. -/
noncomputable def buildRows (lib : RandomLib) (fc pwp taw : ℝ)
    (events : List (ℕ × ℝ)) (start nHours s : ℕ) : List Record :=
  let n6 := gaussList lib moisture_noise_std nHours s
  let n12 := gaussList lib moisture_noise_std nHours n6.2
  let n18 := gaussList lib moisture_noise_std nHours n12.2
  let nAir := gaussList lib temp_noise_std nHours n18.2
  let nCan := gaussList lib (temp_noise_std * 0.5) nHours nAir.2
  (List.range nHours).map fun i =>
    let m := moistureSeries fc pwp taw events start i
    let sm6 := m.sm6 + n6.1.getD i 0
    let sm12 := m.sm12 + n12.1.getD i 0
    let sm18 := m.sm18 + n18.1.getD i 0
    let air := airBase (hourOfDay (start + 3600 * i)) + nAir.1.getD i 0
    let canopy := air + canopyOffset (moistureStress pwp taw sm6 sm12) + nCan.1.getD i 0
    { timestamp := start + 3600 * i
      sm_6in := round4 sm6
      sm_12in := round4 sm12
      sm_18in := round4 sm18
      canopy_temp_c := round1 canopy
      air_temp_c := round1 air }

/-- Failure kind: numpy's ValueError from `np.random.choice` when the
admissible-hour population is smaller than the requested sample. -/
inductive GenError where
  | invalidArgument

/-- Model of `generate_sensor_data` (FakeData.py lines 22-166).  `now` is the
wall clock (seconds since epoch) read by `datetime.now()`; `s0` the
global random state before the call. -/
noncomputable def generate_sensor_data (lib : RandomLib) (days : ℕ)
    (soil_texture : String) (include_rain_events : Bool) (seed : Option ℤ)
    (now s0 : ℕ) : Except GenError (List Record) :=
  let s := resolveSeed lib seed s0
  let props := get_soil_properties soil_texture
  let start := startTimeOf days now
  let nHours := nHoursOf days now
  match (if include_rain_events then genRainEvents lib nHours s
         else some ([], s)) with
  | none => .error .invalidArgument
  | some (events, s2) =>
    .ok (buildRows lib props.fc props.pwp props.taw events start nHours s2)

/-- The flat mapping returned by `get_current_conditions`
(FakeData.py lines 169-184). -/
structure CurrentConditions where
  timestamp : ℕ
  sm_6in : ℝ
  sm_12in : ℝ
  sm_18in : ℝ
  canopy_temp_c : ℝ
  air_temp_c : ℝ

/-- Model of `get_current_conditions` (FakeData.py lines 169-184): `df.iloc[-1]`
raises on an empty frame, so the result is `none` for an empty series
and the last record's fields otherwise. -/
def get_current_conditions (df : List Record) : Option CurrentConditions :=
  match df.getLast? with
  | none => none
  | some latest =>
    some { timestamp := latest.timestamp
           sm_6in := latest.sm_6in
           sm_12in := latest.sm_12in
           sm_18in := latest.sm_18in
           canopy_temp_c := latest.canopy_temp_c
           air_temp_c := latest.air_temp_c }

/-- A concrete `RandomLib` instance used to exercise the generator on
explicit inputs: the state counts up, raw draws echo the state, the
real-valued channels return 0. -/
noncomputable def testLib : RandomLib where
  seedFn := fun z => z.toNat
  randNat := fun s => (s, s + 1)
  randUnit := fun s => (0, s + 1)
  randGauss := fun _ s => (0, s + 1)

/-! ### Helper lemmas -/

/-- Every texture entry in the table has `0 ≤ pwp`, `pwp ≤ fc`, `0 < fc`. -/
lemma texture_entry_sound (t : String) (p : ℝ × ℝ)
    (h : TEXTURE_PROPERTIES t = some p) : 0 ≤ p.2 ∧ p.2 ≤ p.1 ∧ 0 < p.1 := by
  unfold TEXTURE_PROPERTIES at h
  split_ifs at h <;> injection h with h <;> subst h <;> norm_num

/-- The resolved soil properties always satisfy `0 ≤ pwp`, `pwp ≤ fc`,
`0 < fc`. -/
lemma soil_props_sound (t : String) :
    0 ≤ (get_soil_properties t).pwp ∧
      (get_soil_properties t).pwp ≤ (get_soil_properties t).fc ∧
      0 < (get_soil_properties t).fc := by
  unfold get_soil_properties
  rcases h : TEXTURE_PROPERTIES t with _ | p
  · simp only [h, Option.getD_none]
    norm_num
  · simp only [h, Option.getD_some]
    exact texture_entry_sound t p h

/-- The field `taw` is definitionally `fc - pwp` for every resolved texture. -/
lemma soil_props_taw (t : String) :
    (get_soil_properties t).taw =
      (get_soil_properties t).fc - (get_soil_properties t).pwp := rfl

lemma clip_le_hi (x lo hi : ℝ) : clip x lo hi ≤ hi := min_le_left _ _

lemma lo_le_clip (x lo hi : ℝ) (h : lo ≤ hi) : lo ≤ clip x lo hi :=
  le_min h (le_max_left _ _)

/-- Clipping a value that is at most `x` stays at most `x`, provided the
lower clamp is also at most `x`. -/
lemma clip_le_of_le {x y lo hi : ℝ} (hy : y ≤ x) (hlo : lo ≤ x) :
    clip y lo hi ≤ x :=
  le_trans (min_le_right _ _) (max_le hlo hy)

/-- Adding a positive quantity before clipping lands strictly above the
original value, as long as the original value is below the upper clamp. -/
lemma lt_clip_add {x lo hi d : ℝ} (hx : x < hi) (hd : 0 < d) :
    x < clip (x + d) lo hi :=
  lt_min hx (lt_of_lt_of_le (by linarith) (le_max_right _ _))

/-- The diurnal multiplier is nonnegative: inside the window the sine
argument lies in `[0, pi]`. -/
lemma diurnalFactor_nonneg (h : ℕ) : 0 ≤ diurnalFactor h := by
  unfold diurnalFactor
  split
  · rename_i hw
    apply Real.sin_nonneg_of_nonneg_of_le_pi
    · have h6 : (6 : ℝ) ≤ (h : ℝ) := by exact_mod_cast hw.1
      exact div_nonneg (mul_nonneg Real.pi_pos.le (by linarith)) (by norm_num)
    · have h20 : (h : ℝ) ≤ 20 := by exact_mod_cast hw.2
      have hpi := Real.pi_pos
      rw [div_le_iff₀ (by norm_num : (0:ℝ) < 14)]
      nlinarith
  · exact le_rfl

lemma etVolumetric_nonneg (h : ℕ) : 0 ≤ etVolumetric h := by
  unfold etVolumetric
  have := diurnalFactor_nonneg h
  positivity

/-- The pre-noise series stays in the clamp interval at every hour and
for every event list. -/
lemma moistureSeries_bounds (fc pwp taw : ℝ) (events : List (ℕ × ℝ))
    (start : ℕ) (hp : 0 ≤ pwp) (hf : pwp ≤ fc) (ht : taw = fc - pwp) :
    ∀ i, (pwp * 0.8 ≤ (moistureSeries fc pwp taw events start i).sm6 ∧
            (moistureSeries fc pwp taw events start i).sm6 ≤ fc * 1.05) ∧
         (pwp * 0.8 ≤ (moistureSeries fc pwp taw events start i).sm12 ∧
            (moistureSeries fc pwp taw events start i).sm12 ≤ fc * 1.05) ∧
         (pwp * 0.8 ≤ (moistureSeries fc pwp taw events start i).sm18 ∧
            (moistureSeries fc pwp taw events start i).sm18 ≤ fc * 1.05) := by
  have hlohi : pwp * 0.8 ≤ fc * 1.05 := by linarith
  intro i
  cases i with
  | zero =>
    subst ht
    simp only [moistureSeries]
    refine ⟨⟨?_, ?_⟩, ⟨?_, ?_⟩, ⟨?_, ?_⟩⟩ <;> linarith
  | succ i =>
    simp only [moistureSeries, moistureStep, clampM]
    exact ⟨⟨lo_le_clip _ _ _ hlohi, clip_le_hi _ _ _⟩,
           ⟨lo_le_clip _ _ _ hlohi, clip_le_hi _ _ _⟩,
           ⟨lo_le_clip _ _ _ hlohi, clip_le_hi _ _ _⟩⟩

lemma rainAdd_nil (i : ℕ) (m : Moisture) : rainAdd [] i m = m := rfl

/-- A rain event strictly in the future does not touch the current hour. -/
lemma rainAddOne_inactive (i : ℕ) (m : Moisture) (ev : ℕ × ℝ)
    (h : i < ev.1) : rainAddOne i m ev = m := by
  unfold rainAddOne
  rw [if_neg (by omega), if_neg (by omega)]

/-- A list of rain events all strictly in the future does not touch the
current hour. -/
lemma rainAdd_inactive (events : List (ℕ × ℝ)) (i : ℕ) (m : Moisture)
    (h : ∀ ev ∈ events, i < ev.1) : rainAdd events i m = m := by
  induction events generalizing m with
  | nil => rfl
  | cons ev rest ih =>
    simp only [rainAdd, List.foldl_cons]
    rw [rainAddOne_inactive i m ev (h ev (by simp))]
    exact ih m fun e he => h e (by simp [he])

/-- With no rain events, one simulation step never increases any depth. -/
lemma moistureSeries_step_le (fc pwp taw : ℝ) (start : ℕ)
    (hp : 0 ≤ pwp) (hf : pwp ≤ fc) (ht : taw = fc - pwp) (i : ℕ) :
    (moistureSeries fc pwp taw [] start (i + 1)).sm6 ≤
        (moistureSeries fc pwp taw [] start i).sm6 ∧
    (moistureSeries fc pwp taw [] start (i + 1)).sm12 ≤
        (moistureSeries fc pwp taw [] start i).sm12 ∧
    (moistureSeries fc pwp taw [] start (i + 1)).sm18 ≤
        (moistureSeries fc pwp taw [] start i).sm18 := by
  have hb := moistureSeries_bounds fc pwp taw [] start hp hf ht i
  have hev := etVolumetric_nonneg (hourOfDay (start + 3600 * (i + 1)))
  have hlo6 : pwp * 0.8 ≤ (moistureSeries fc pwp taw [] start i).sm6 := hb.1.1
  have hlo12 : pwp * 0.8 ≤ (moistureSeries fc pwp taw [] start i).sm12 := hb.2.1.1
  have hlo18 : pwp * 0.8 ≤ (moistureSeries fc pwp taw [] start i).sm18 := hb.2.2.1
  simp only [moistureSeries, moistureStep, rainAdd_nil, clampM, etStep]
  exact ⟨clip_le_of_le (by linarith) hlo6,
         clip_le_of_le (by linarith) hlo12,
         clip_le_of_le (by linarith) hlo18⟩

/-- With no rain events the pre-noise series is non-increasing in the
hour index, at every depth. -/
lemma moistureSeries_antitone (fc pwp taw : ℝ) (start : ℕ)
    (hp : 0 ≤ pwp) (hf : pwp ≤ fc) (ht : taw = fc - pwp) {i j : ℕ}
    (hij : i ≤ j) :
    (moistureSeries fc pwp taw [] start j).sm6 ≤
        (moistureSeries fc pwp taw [] start i).sm6 ∧
    (moistureSeries fc pwp taw [] start j).sm12 ≤
        (moistureSeries fc pwp taw [] start i).sm12 ∧
    (moistureSeries fc pwp taw [] start j).sm18 ≤
        (moistureSeries fc pwp taw [] start i).sm18 := by
  induction j with
  | zero =>
    have : i = 0 := Nat.le_zero.mp hij
    subst this
    exact ⟨le_rfl, le_rfl, le_rfl⟩
  | succ j ih =>
    rcases Nat.lt_or_ge i (j + 1) with hlt | hge
    · have hj : i ≤ j := Nat.lt_succ_iff.mp hlt
      have h1 := ih hj
      have h2 := moistureSeries_step_le fc pwp taw start hp hf ht j
      exact ⟨le_trans h2.1 h1.1, le_trans h2.2.1 h1.2.1, le_trans h2.2.2 h1.2.2⟩
    · have : i = j + 1 := le_antisymm hij hge
      subst this
      exact ⟨le_rfl, le_rfl, le_rfl⟩

/-- As long as every rain event lies strictly in the future, the shallow
series stays at or below the initial moisture. -/
lemma moistureSeries_sm6_le_initial (fc pwp taw : ℝ)
    (events : List (ℕ × ℝ)) (start : ℕ)
    (hp : 0 ≤ pwp) (hf : pwp ≤ fc) (ht : taw = fc - pwp) :
    ∀ i, (∀ ev ∈ events, i < ev.1) →
      (moistureSeries fc pwp taw events start i).sm6 ≤ pwp + 0.70 * taw := by
  intro i
  induction i with
  | zero => intro _; exact le_rfl
  | succ i ih =>
    intro hev
    have hihyp : ∀ ev ∈ events, i < ev.1 := fun ev he => by
      have := hev ev he; omega
    have hprev := ih hihyp
    have hb := moistureSeries_bounds fc pwp taw events start hp hf ht i
    have hev' := etVolumetric_nonneg (hourOfDay (start + 3600 * (i + 1)))
    have hinit : pwp * 0.8 ≤ pwp + 0.70 * taw := by
      subst ht; linarith
    simp only [moistureSeries, moistureStep, clampM]
    rw [rainAdd_inactive events (i + 1) _ (fun ev he => hev ev he)]
    simp only [etStep]
    exact clip_le_of_le (by linarith) hinit

/-- Lemma: `sampleNoReplace` fails exactly when the population is smaller than
the requested sample size (numpy's ValueError condition). -/
lemma sampleNoReplace_eq_none_iff (lib : RandomLib) :
    ∀ (k : ℕ) (pool : List ℕ) (s : ℕ),
      sampleNoReplace lib k pool s = none ↔ pool.length < k := by
  intro k
  induction k with
  | zero =>
    intro pool s
    simp [sampleNoReplace]
  | succ k ih =>
    intro pool s
    cases pool with
    | nil => simp [sampleNoReplace]
    | cons p ps =>
      have hlt : (lib.randNat s).1 % (p :: ps).length < (p :: ps).length :=
        Nat.mod_lt _ (by simp)
      have herase := List.length_eraseIdx_of_lt hlt
      rcases hrec : sampleNoReplace lib k
          ((p :: ps).eraseIdx ((lib.randNat s).1 % (p :: ps).length))
          (lib.randNat s).2 with _ | pr
      · have h1 : (p :: ps).length - 1 < k := by
          have := (ih _ _).mp hrec
          rwa [herase] at this
        simp only [sampleNoReplace, hrec]
        exact ⟨fun _ => by simp at h1 ⊢; omega, fun _ => trivial⟩
      · have h1 : ¬ (p :: ps).length - 1 < k := by
          intro hh
          have h2 := (ih ((p :: ps).eraseIdx
            ((lib.randNat s).1 % (p :: ps).length)) (lib.randNat s).2).mpr
            (by rwa [herase])
          rw [hrec] at h2
          exact Option.noConfusion h2
        simp only [sampleNoReplace, hrec]
        constructor
        · intro hh
          exact Option.noConfusion hh
        · intro hh
          exact absurd (by simp at hh h1 ⊢; omega) h1

/-- Any successful generator call returns exactly the rows built by the
post-loop pipeline, for some event list and random state. -/
lemma generate_ok_elim {lib : RandomLib} {days : ℕ} {t : String}
    {rain : Bool} {seed : Option ℤ} {now s0 : ℕ} {rows : List Record}
    (h : generate_sensor_data lib days t rain seed now s0 = .ok rows) :
    ∃ events s2, rows = buildRows lib (get_soil_properties t).fc
      (get_soil_properties t).pwp (get_soil_properties t).taw events
      (startTimeOf days now) (nHoursOf days now) s2 := by
  simp only [generate_sensor_data] at h
  rcases hg : (if rain then
      genRainEvents lib (nHoursOf days now) (resolveSeed lib seed s0)
    else some ([], resolveSeed lib seed s0)) with _ | pr
  · rw [hg] at h
    exact absurd h (by simp)
  · rw [hg] at h
    obtain ⟨events, s2⟩ := pr
    simp only [Except.ok.injEq] at h
    exact ⟨events, s2, h.symm⟩

lemma buildRows_length (lib : RandomLib) (fc pwp taw : ℝ)
    (events : List (ℕ × ℝ)) (start nHours s : ℕ) :
    (buildRows lib fc pwp taw events start nHours s).length = nHours := by
  simp [buildRows]

lemma buildRows_map_timestamp (lib : RandomLib) (fc pwp taw : ℝ)
    (events : List (ℕ × ℝ)) (start nHours s : ℕ) :
    (buildRows lib fc pwp taw events start nHours s).map Record.timestamp =
      (List.range nHours).map fun i => start + 3600 * i := by
  simp only [buildRows, List.map_map]
  rfl

/-- With an aligned clock (`days` of history fit below the current
hour), the generated series has `days*24 + 1` hourly samples. -/
lemma nHoursOf_eq (days now : ℕ) (h : days * 86400 ≤ endTimeOf now) :
    nHoursOf days now = days * 24 + 1 := by
  unfold nHoursOf dateRange startTimeOf
  simp only [List.length_map, List.length_range]
  rw [Nat.sub_sub_self h]
  omega

lemma getLast?_range_map {α : Type} (f : ℕ → α) (n : ℕ) :
    ((List.range (n + 1)).map f).getLast? = some (f n) := by
  rw [List.range_succ, List.map_append]
  exact List.getLast?_concat _

/-! ### Claim theorems -/

/-- Claim C3: for every valid call (`days` positive, clock aligned so the
requested history fits), a returned table has exactly `days*24 + 1` rows
and its last timestamp is the current hour with the sub-hour part zeroed. -/
theorem C3_row_count (lib : RandomLib) (days : ℕ) (t : String) (rain : Bool)
    (seed : Option ℤ) (now s0 : ℕ) (rows : List Record)
    (_hd : 1 ≤ days) (ha : days * 86400 ≤ endTimeOf now)
    (h : generate_sensor_data lib days t rain seed now s0 = .ok rows) :
    rows.length = days * 24 + 1 ∧
      (rows.map Record.timestamp).getLast? = some (endTimeOf now) := by
  obtain ⟨events, s2, hrows⟩ := generate_ok_elim h
  subst hrows
  have hn := nHoursOf_eq days now ha
  constructor
  · rw [buildRows_length, hn]
  · rw [buildRows_map_timestamp, hn, getLast?_range_map]
    congr 1
    unfold startTimeOf
    omega

/-- Witness for C3 at a concrete call. -/
theorem C3_row_count_witness :
    ∃ rows, generate_sensor_data testLib 1 "Sand" false none 864000 0 =
        .ok rows ∧
      rows.length = 1 * 24 + 1 ∧
      (rows.map Record.timestamp).getLast? = some (endTimeOf 864000) := by
  refine ⟨_, rfl, ?_⟩
  exact C3_row_count testLib 1 "Sand" false none 864000 0 _
    (by norm_num) (by decide) rfl

/-- Claim C4: a texture name not present in the table behaves exactly
like the default texture name "Silt Loam": the generator output is
identical (same seed, same remaining arguments) and no error is raised. -/
theorem C4_unknown_texture (lib : RandomLib) (days : ℕ) (t : String)
    (rain : Bool) (seed : Option ℤ) (now s0 : ℕ)
    (h : TEXTURE_PROPERTIES t = none) :
    generate_sensor_data lib days t rain seed now s0 =
      generate_sensor_data lib days "Silt Loam" rain seed now s0 := by
  have hp : get_soil_properties t = get_soil_properties "Silt Loam" := by
    unfold get_soil_properties
    rw [h]
    rfl
  simp only [generate_sensor_data, hp]

/-- Witness for C4 at the unknown texture name "Quartz". -/
theorem C4_unknown_texture_witness :
    TEXTURE_PROPERTIES "Quartz" = none ∧
      generate_sensor_data testLib 1 "Quartz" false none 864000 0 =
        generate_sensor_data testLib 1 "Silt Loam" false none 864000 0 :=
  ⟨rfl, C4_unknown_texture testLib 1 "Quartz" false none 864000 0 rfl⟩

/-- Claim C5: when the drawn rain-event count exceeds the number of
admissible hours (`n_hours - 48 < n_events`), the generator fails with
the invalid-argument error instead of returning a truncated series. -/
theorem C5_rain_precondition (lib : RandomLib) (days : ℕ) (t : String)
    (seed : Option ℤ) (now s0 : ℕ)
    (h : nHoursOf days now - 48 <
      2 + (lib.randNat (resolveSeed lib seed s0)).1 % 3) :
    generate_sensor_data lib days t true seed now s0 =
      .error .invalidArgument := by
  have hpool : (List.range' 24 (nHoursOf days now - 24 - 24)).length <
      2 + (lib.randNat (resolveSeed lib seed s0)).1 % 3 := by
    rw [List.length_range']
    omega
  have hs := (sampleNoReplace_eq_none_iff lib
    (2 + (lib.randNat (resolveSeed lib seed s0)).1 % 3)
    (List.range' 24 (nHoursOf days now - 24 - 24))
    (lib.randNat (resolveSeed lib seed s0)).2).mpr hpool
  have hnone : genRainEvents lib (nHoursOf days now)
      (resolveSeed lib seed s0) = none := by
    simp only [genRainEvents, hs]
  simp only [generate_sensor_data, if_true, hnone]

/-- Witness for C5: one day of history is too short for any drawn event
count, and the call fails. -/
theorem C5_rain_precondition_witness :
    (nHoursOf 1 864000 - 48 <
        2 + (testLib.randNat (resolveSeed testLib (some 42) 0)).1 % 3) ∧
      generate_sensor_data testLib 1 "Silt Loam" true (some 42) 864000 0 =
        .error .invalidArgument :=
  ⟨by decide,
    C5_rain_precondition testLib 1 "Silt Loam" (some 42) 864000 0 (by decide)⟩

/-- Claim C6: each simulation hour applies, before rain and clamping,
the ET update `prev - (0.012*m/6)*factor` at depth factors 1.0/0.6/0.3,
where `m` is `sin(pi*(hour-6)/14)` inside local hours [6,20] and 0
outside. -/
theorem C6_et_update (t : String) (events : List (ℕ × ℝ)) (start i : ℕ) :
    moistureSeries (get_soil_properties t).fc (get_soil_properties t).pwp
        (get_soil_properties t).taw events start (i + 1) =
      clampM (get_soil_properties t).fc (get_soil_properties t).pwp
        (rainAdd events (i + 1)
          (etStep (hourOfDay (start + 3600 * (i + 1)))
            (moistureSeries (get_soil_properties t).fc
              (get_soil_properties t).pwp (get_soil_properties t).taw
              events start i))) ∧
    etStep (hourOfDay (start + 3600 * (i + 1)))
        (moistureSeries (get_soil_properties t).fc (get_soil_properties t).pwp
          (get_soil_properties t).taw events start i) =
      { sm6 := (moistureSeries (get_soil_properties t).fc
            (get_soil_properties t).pwp (get_soil_properties t).taw
            events start i).sm6 -
          0.012 * (if 6 ≤ hourOfDay (start + 3600 * (i + 1)) ∧
              hourOfDay (start + 3600 * (i + 1)) ≤ 20
            then Real.sin (Real.pi *
              ((hourOfDay (start + 3600 * (i + 1)) : ℝ) - 6) / 14)
            else 0) / 6 * 1.0
        sm12 := (moistureSeries (get_soil_properties t).fc
            (get_soil_properties t).pwp (get_soil_properties t).taw
            events start i).sm12 -
          0.012 * (if 6 ≤ hourOfDay (start + 3600 * (i + 1)) ∧
              hourOfDay (start + 3600 * (i + 1)) ≤ 20
            then Real.sin (Real.pi *
              ((hourOfDay (start + 3600 * (i + 1)) : ℝ) - 6) / 14)
            else 0) / 6 * 0.6
        sm18 := (moistureSeries (get_soil_properties t).fc
            (get_soil_properties t).pwp (get_soil_properties t).taw
            events start i).sm18 -
          0.012 * (if 6 ≤ hourOfDay (start + 3600 * (i + 1)) ∧
              hourOfDay (start + 3600 * (i + 1)) ≤ 20
            then Real.sin (Real.pi *
              ((hourOfDay (start + 3600 * (i + 1)) : ℝ) - 6) / 14)
            else 0) / 6 * 0.3 } :=
  ⟨rfl, rfl⟩

/-- Claim C8: the moisture-stress index entering the canopy offset is
clipped to [0,1], and the pre-noise canopy temperature is the air
temperature plus `-2 + 7*stress` with the stress exactly
`clip(1 - (avg - pwp)/taw, 0, 1)`. -/
theorem C8_stress_clipped (pwp taw sm6 sm12 air : ℝ) :
    (0 ≤ moistureStress pwp taw sm6 sm12 ∧
        moistureStress pwp taw sm6 sm12 ≤ 1) ∧
      air + canopyOffset (moistureStress pwp taw sm6 sm12) =
        air + (-2 + 7 * clip (1 - ((sm6 + sm12) / 2 - pwp) / taw) 0 1) :=
  ⟨⟨lo_le_clip _ _ _ (by norm_num), clip_le_hi _ _ _⟩, rfl⟩

/-- Claim C10: the current-conditions extractor returns the last
record's six fields on a non-empty series and fails (no value) on an
empty one. -/
theorem C10_current_conditions (df : List Record) (r : Record) :
    (df.getLast? = some r →
      get_current_conditions df = some
        { timestamp := r.timestamp, sm_6in := r.sm_6in,
          sm_12in := r.sm_12in, sm_18in := r.sm_18in,
          canopy_temp_c := r.canopy_temp_c, air_temp_c := r.air_temp_c }) ∧
    get_current_conditions [] = none := by
  constructor
  · intro h
    unfold get_current_conditions
    rw [h]
  · rfl

/-- A concrete record for the C10 witness. -/
noncomputable def sampleRecord : Record :=
  { timestamp := 3600, sm_6in := 0.27, sm_12in := 0.27, sm_18in := 0.27,
    canopy_temp_c := 30, air_temp_c := 29 }

/-- Witness for C10 on a one-element series. -/
theorem C10_current_conditions_witness :
    ([sampleRecord].getLast? = some sampleRecord) ∧
      get_current_conditions [sampleRecord] = some
        { timestamp := sampleRecord.timestamp,
          sm_6in := sampleRecord.sm_6in, sm_12in := sampleRecord.sm_12in,
          sm_18in := sampleRecord.sm_18in,
          canopy_temp_c := sampleRecord.canopy_temp_c,
          air_temp_c := sampleRecord.air_temp_c } ∧
      get_current_conditions [] = none :=
  ⟨rfl, (C10_current_conditions [sampleRecord] sampleRecord).1 rfl,
    (C10_current_conditions [sampleRecord] sampleRecord).2⟩

/-- Claim C9: with rain events disabled, the noise-free core series is
non-increasing in the hour index at every depth (plateaus allowed), and
a `days = 1` call returns exactly 25 rows. -/
theorem C9_norain_monotone (t : String) (start i j : ℕ) (lib : RandomLib)
    (seed : Option ℤ) (now s0 : ℕ) (rows : List Record)
    (hij : i ≤ j) (ha : 1 * 86400 ≤ endTimeOf now)
    (h : generate_sensor_data lib 1 t false seed now s0 = .ok rows) :
    ((moistureSeries (get_soil_properties t).fc (get_soil_properties t).pwp
          (get_soil_properties t).taw [] start j).sm6 ≤
        (moistureSeries (get_soil_properties t).fc (get_soil_properties t).pwp
          (get_soil_properties t).taw [] start i).sm6 ∧
      (moistureSeries (get_soil_properties t).fc (get_soil_properties t).pwp
          (get_soil_properties t).taw [] start j).sm12 ≤
        (moistureSeries (get_soil_properties t).fc (get_soil_properties t).pwp
          (get_soil_properties t).taw [] start i).sm12 ∧
      (moistureSeries (get_soil_properties t).fc (get_soil_properties t).pwp
          (get_soil_properties t).taw [] start j).sm18 ≤
        (moistureSeries (get_soil_properties t).fc (get_soil_properties t).pwp
          (get_soil_properties t).taw [] start i).sm18) ∧
    rows.length = 25 := by
  obtain ⟨hp0, hpf, _⟩ := soil_props_sound t
  constructor
  · exact moistureSeries_antitone _ _ _ start hp0 hpf (soil_props_taw t) hij
  · obtain ⟨events, s2, hrows⟩ := generate_ok_elim h
    subst hrows
    rw [buildRows_length, nHoursOf_eq 1 now ha]

/-- Witness for C9 at a concrete call with texture "Sand". -/
theorem C9_norain_monotone_witness :
    ∃ rows, generate_sensor_data testLib 1 "Sand" false none 864000 0 =
        .ok rows ∧
      (((moistureSeries (get_soil_properties "Sand").fc
            (get_soil_properties "Sand").pwp
            (get_soil_properties "Sand").taw [] 0 5).sm6 ≤
          (moistureSeries (get_soil_properties "Sand").fc
            (get_soil_properties "Sand").pwp
            (get_soil_properties "Sand").taw [] 0 0).sm6 ∧
        (moistureSeries (get_soil_properties "Sand").fc
            (get_soil_properties "Sand").pwp
            (get_soil_properties "Sand").taw [] 0 5).sm12 ≤
          (moistureSeries (get_soil_properties "Sand").fc
            (get_soil_properties "Sand").pwp
            (get_soil_properties "Sand").taw [] 0 0).sm12 ∧
        (moistureSeries (get_soil_properties "Sand").fc
            (get_soil_properties "Sand").pwp
            (get_soil_properties "Sand").taw [] 0 5).sm18 ≤
          (moistureSeries (get_soil_properties "Sand").fc
            (get_soil_properties "Sand").pwp
            (get_soil_properties "Sand").taw [] 0 0).sm18) ∧
        rows.length = 25) := by
  refine ⟨_, rfl, ?_⟩
  exact C9_norain_monotone "Sand" 0 0 5 testLib none 864000 0 _
    (by omega) (by decide) rfl

/-- A concrete moisture triple for the C7 witness. -/
noncomputable def sampleMoisture : Moisture :=
  { sm6 := 0.27, sm12 := 0.27, sm18 := 0.27 }

/-- Claim C7: a rain event adds `amount*0.08/0.04/0.02` to
shallow/mid/deep at its own hour, adds the linearly decaying continued
infiltration to mid and deep only at hours strictly inside
`(event_hour, event_hour+12)`, and a rain event of amount 1.0 at hour 10
makes the shallow value at hour 10 strictly exceed pure ET extrapolation
from hour 9. -/
theorem C7_rain_infiltration (eh i : ℕ) (a : ℝ) (m : Moisture)
    (t : String) (start : ℕ) :
    (i = eh → rainAdd [(eh, a)] i m =
      { sm6 := m.sm6 + a * 0.08, sm12 := m.sm12 + a * 0.04,
        sm18 := m.sm18 + a * 0.02 }) ∧
    (eh < i ∧ i < eh + 12 → rainAdd [(eh, a)] i m =
      { sm6 := m.sm6,
        sm12 := m.sm12 + a * 0.003 * (12 - ((i - eh : ℕ) : ℝ)) / 12,
        sm18 := m.sm18 + a * 0.002 * (12 - ((i - eh : ℕ) : ℝ)) / 12 }) ∧
    (etStep (hourOfDay (start + 3600 * 10))
        (moistureSeries (get_soil_properties t).fc (get_soil_properties t).pwp
          (get_soil_properties t).taw [(10, 1)] start 9)).sm6 <
      (moistureSeries (get_soil_properties t).fc (get_soil_properties t).pwp
        (get_soil_properties t).taw [(10, 1)] start 10).sm6 := by
  refine ⟨?_, ?_, ?_⟩
  · intro hi
    subst hi
    simp [rainAdd, rainAddOne]
  · intro hw
    have hne : i ≠ eh := by omega
    simp [rainAdd, rainAddOne, hne, hw.1, hw.2]
  · obtain ⟨hp0, hpf, hf0⟩ := soil_props_sound t
    have ht := soil_props_taw t
    set fc := (get_soil_properties t).fc
    set pwp := (get_soil_properties t).pwp
    set taw := (get_soil_properties t).taw
    have h9 := moistureSeries_sm6_le_initial fc pwp taw [(10, 1)] start
      hp0 hpf ht 9 (by
        intro ev he
        rw [List.mem_singleton] at he
        subst he
        norm_num)
    have hevn := etVolumetric_nonneg (hourOfDay (start + 3600 * 10))
    have hxlt : (etStep (hourOfDay (start + 3600 * 10))
        (moistureSeries fc pwp taw [(10, 1)] start 9)).sm6 < fc * 1.05 := by
      have hub : pwp + 0.70 * taw < fc * 1.05 := by
        rw [ht]; linarith
      simp only [etStep]
      linarith
    have h10 : (moistureSeries fc pwp taw [(10, 1)] start 10).sm6 =
        clip ((etStep (hourOfDay (start + 3600 * 10))
            (moistureSeries fc pwp taw [(10, 1)] start 9)).sm6 + 1 * 0.08)
          (pwp * 0.8) (fc * 1.05) := rfl
    rw [h10]
    exact lt_clip_add hxlt (by norm_num)

/-- Witness for C7 at concrete hours 10 (immediate) and 15 (continued),
amount 1, and the hour-10 scenario for the default texture. -/
theorem C7_rain_infiltration_witness :
    (rainAdd [(10, 1)] 10 sampleMoisture =
      { sm6 := sampleMoisture.sm6 + 1 * 0.08,
        sm12 := sampleMoisture.sm12 + 1 * 0.04,
        sm18 := sampleMoisture.sm18 + 1 * 0.02 }) ∧
    (rainAdd [(10, 1)] 15 sampleMoisture =
      { sm6 := sampleMoisture.sm6,
        sm12 := sampleMoisture.sm12 + 1 * 0.003 * (12 - ((15 - 10 : ℕ) : ℝ)) / 12,
        sm18 := sampleMoisture.sm18 + 1 * 0.002 * (12 - ((15 - 10 : ℕ) : ℝ)) / 12 }) ∧
    (etStep (hourOfDay (0 + 3600 * 10))
        (moistureSeries (get_soil_properties "Silt Loam").fc
          (get_soil_properties "Silt Loam").pwp
          (get_soil_properties "Silt Loam").taw [(10, 1)] 0 9)).sm6 <
      (moistureSeries (get_soil_properties "Silt Loam").fc
        (get_soil_properties "Silt Loam").pwp
        (get_soil_properties "Silt Loam").taw [(10, 1)] 0 10).sm6 :=
  ⟨(C7_rain_infiltration 10 10 1 sampleMoisture "Silt Loam" 0).1 rfl,
   (C7_rain_infiltration 10 15 1 sampleMoisture "Silt Loam" 0).2.1
     (by norm_num),
   (C7_rain_infiltration 10 10 1 sampleMoisture "Silt Loam" 0).2.2⟩

/-- Claim C1, amended: the clamp to `[pwp*0.8, fc*1.05]` holds for the
pre-noise core series at every hour, every event list and every texture;
the returned values add Gaussian noise after clamping and can leave the
interval (see the counterexample). -/
theorem C1_preNoise_bounds (t : String) (events : List (ℕ × ℝ))
    (start i : ℕ) :
    ((get_soil_properties t).pwp * 0.8 ≤
        (moistureSeries (get_soil_properties t).fc (get_soil_properties t).pwp
          (get_soil_properties t).taw events start i).sm6 ∧
      (moistureSeries (get_soil_properties t).fc (get_soil_properties t).pwp
          (get_soil_properties t).taw events start i).sm6 ≤
        (get_soil_properties t).fc * 1.05) ∧
    ((get_soil_properties t).pwp * 0.8 ≤
        (moistureSeries (get_soil_properties t).fc (get_soil_properties t).pwp
          (get_soil_properties t).taw events start i).sm12 ∧
      (moistureSeries (get_soil_properties t).fc (get_soil_properties t).pwp
          (get_soil_properties t).taw events start i).sm12 ≤
        (get_soil_properties t).fc * 1.05) ∧
    ((get_soil_properties t).pwp * 0.8 ≤
        (moistureSeries (get_soil_properties t).fc (get_soil_properties t).pwp
          (get_soil_properties t).taw events start i).sm18 ∧
      (moistureSeries (get_soil_properties t).fc (get_soil_properties t).pwp
          (get_soil_properties t).taw events start i).sm18 ≤
        (get_soil_properties t).fc * 1.05) := by
  obtain ⟨hp0, hpf, _⟩ := soil_props_sound t
  exact moistureSeries_bounds _ _ _ events start hp0 hpf (soil_props_taw t) i

/-- A random source whose Gaussian channel draws 0.08 — about 5.3 sigma
of the moisture-noise scale, well inside the support of
`np.random.normal` — used to exhibit a returned value outside the clamp
interval. -/
noncomputable def badLib : RandomLib where
  seedFn := fun z => z.toNat
  randNat := fun s => (s, s + 1)
  randUnit := fun s => (0, s + 1)
  randGauss := fun _ s => (0.08, s + 1)

/-- The first row's shallow value is the initial moisture plus the first
draw of the shallow noise channel, rounded. -/
lemma buildRows_head_sm6 (lib : RandomLib) (fc pwp taw : ℝ)
    (events : List (ℕ × ℝ)) (start nHours s : ℕ) (hn : 0 < nHours) :
    ∃ r ∈ buildRows lib fc pwp taw events start nHours s,
      r.sm_6in = round4 ((pwp + 0.70 * taw) +
        (lib.randGauss moisture_noise_std s).1) := by
  obtain ⟨k, rfl⟩ : ∃ k, nHours = k + 1 := ⟨nHours - 1, by omega⟩
  simp only [buildRows]
  exact ⟨_, List.mem_map.mpr ⟨0, List.mem_range.mpr (by omega), rfl⟩, rfl⟩

/-- Counterexample to claim C1 as stated: a call whose first returned
shallow moisture value exceeds `fc * 1.05` (the noise is added after
the clamp). -/
theorem C1_claim_counterexample :
    ∃ rows, generate_sensor_data badLib 1 "Silt Loam" false (some 0) 864000 0 =
        .ok rows ∧
      ∃ r ∈ rows, (get_soil_properties "Silt Loam").fc * 1.05 < r.sm_6in := by
  refine ⟨_, rfl, ?_⟩
  obtain ⟨r, hmem, hval⟩ := buildRows_head_sm6 badLib
    (get_soil_properties "Silt Loam").fc (get_soil_properties "Silt Loam").pwp
    (get_soil_properties "Silt Loam").taw [] (startTimeOf 1 864000)
    (nHoursOf 1 864000) (resolveSeed badLib (some 0) 0) (by decide)
  refine ⟨r, hmem, ?_⟩
  rw [hval]
  have hfc : (get_soil_properties "Silt Loam").fc = 0.33 := rfl
  have hpwp : (get_soil_properties "Silt Loam").pwp = 0.13 := rfl
  have htaw : (get_soil_properties "Silt Loam").taw = 0.33 - 0.13 := rfl
  have hg : (badLib.randGauss moisture_noise_std
      (resolveSeed badLib (some 0) 0)).1 = 0.08 := rfl
  rw [hfc, hpwp, htaw, hg]
  unfold round4
  rw [show ((0.13 : ℝ) + 0.70 * (0.33 - 0.13) + 0.08) * 10000 = ((3500 : ℤ) : ℝ)
    by norm_num]
  rw [round_intCast]
  norm_num

/-- Claim C2, amended: with an explicit seed the whole pipeline is a
function of the arguments and the resolved current hour only — two calls
made at any two instants whose `datetime.now()` truncates to the same
hour, with any two prior states of the shared random source, return
identical tables.  Calls resolving different current hours can differ
(see the counterexample). -/
theorem C2_seed_determinism (lib : RandomLib) (days : ℕ) (t : String)
    (seed : ℤ) (now1 now2 s1 s2 : ℕ)
    (h : endTimeOf now1 = endTimeOf now2) :
    generate_sensor_data lib days t true (some seed) now1 s1 =
      generate_sensor_data lib days t true (some seed) now2 s2 := by
  have hstart : startTimeOf days now1 = startTimeOf days now2 := by
    unfold startTimeOf
    rw [h]
  have hn : nHoursOf days now1 = nHoursOf days now2 := by
    unfold nHoursOf
    rw [hstart, h]
  simp only [generate_sensor_data, resolveSeed, hstart, hn]

/-- Witness for the amended C2: two instants half an hour apart inside
the same clock hour, with different prior random states, give identical
outputs. -/
theorem C2_seed_determinism_witness :
    endTimeOf 864000 = endTimeOf 865800 ∧
      generate_sensor_data testLib 3 "Silt Loam" true (some 42) 864000 0 =
        generate_sensor_data testLib 3 "Silt Loam" true (some 42) 865800 5 :=
  ⟨by decide,
    C2_seed_determinism testLib 3 "Silt Loam" 42 864000 865800 0 5 (by decide)⟩

/-- A successful rain-event draw fixes the generator output. -/
lemma generate_ok_of_some {lib : RandomLib} {days : ℕ} {t : String}
    {seed : Option ℤ} {now s0 : ℕ} {events : List (ℕ × ℝ)} {s2 : ℕ}
    (hg : genRainEvents lib (nHoursOf days now) (resolveSeed lib seed s0) =
      some (events, s2)) :
    generate_sensor_data lib days t true seed now s0 =
      .ok (buildRows lib (get_soil_properties t).fc
        (get_soil_properties t).pwp (get_soil_properties t).taw events
        (startTimeOf days now) (nHoursOf days now) s2) := by
  simp only [generate_sensor_data, if_true, hg]

/-- Counterexample to claim C2 as stated: two calls with identical
arguments and seed but one hour apart on the wall clock return different
tables (the timestamp column shifts). -/
theorem C2_claim_counterexample :
    generate_sensor_data testLib 3 "Silt Loam" true (some 42) 864000 0 ≠
      generate_sensor_data testLib 3 "Silt Loam" true (some 42) 867600 0 := by
  intro h
  obtain ⟨⟨events1, s21⟩, hg1⟩ := Option.isSome_iff_exists.mp
    (by decide : (genRainEvents testLib (nHoursOf 3 864000)
      (resolveSeed testLib (some 42) 0)).isSome = true)
  obtain ⟨⟨events2, s22⟩, hg2⟩ := Option.isSome_iff_exists.mp
    (by decide : (genRainEvents testLib (nHoursOf 3 867600)
      (resolveSeed testLib (some 42) 0)).isSome = true)
  rw [generate_ok_of_some hg1, generate_ok_of_some hg2] at h
  injection h with hb
  have hts : ((List.range (nHoursOf 3 864000)).map
        fun i => startTimeOf 3 864000 + 3600 * i) =
      ((List.range (nHoursOf 3 867600)).map
        fun i => startTimeOf 3 867600 + 3600 * i) := by
    rw [← buildRows_map_timestamp, ← buildRows_map_timestamp, hb]
  have hn1 : nHoursOf 3 864000 = 73 := by decide
  have hn2 : nHoursOf 3 867600 = 73 := by decide
  have hs1 : startTimeOf 3 864000 = 604800 := by decide
  have hs2 : startTimeOf 3 867600 = 608400 := by decide
  rw [hn1, hn2, hs1, hs2] at hts
  have h0 := congrArg (fun l => l[0]?) hts
  simp at h0

end IrrigationDemo
